import Mathlib

/-!
Shallow embedding of `src/validate_parquet.py` (solar-analytics), the data
quality validation engine, together with theorems settling the specified
claims about it.

Modelling conventions:
* A parquet file's tabular content is modelled by `DataFrame`: an ordered
  list of named columns, each a list of `Cell`s, plus the row count.
* A `Cell` is either missing (null/NaN) or a present value characterised by
  what the two pandas coercions do to it: its parse as a number
  (`pd.to_numeric(..., errors='coerce')`) and its parse as a timestamp's
  (year, month) (`pd.to_datetime(..., errors='coerce')`, of which the checks
  only read `.dt.year` / `.dt.month`).
* Machine floats of the source are modelled as `Rat`; the configured bounds
  and the data values are exact in this range so no rounding is involved.
* The discovered batch (the result of `sorted(base_path.rglob('*.parquet'))`)
  is the function's input: a list of files, each with its path segments
  (`pf.parts`) and its materialised content.
* Python exceptions (`IndexError` from `[...][0]` / `[...][1]`, `ValueError`
  from `int(...)` and from the final critical-failure raise) are modelled by
  `Except String`, the error being the exception's message.
* `**kwargs` of the entry point is modelled by an explicit argument of
  key/value pairs; the source never reads it.
-/

set_option linter.unusedVariables false

namespace SolarAnalytics

/-- Cell of a column: missing (already null), or a present value described by
its numeric parse and its timestamp parse (year, month). -/
inductive Cell where
  | missing : Cell
  | value : Option Rat → Option (Int × Int) → Cell
deriving DecidableEq

/-- Numeric coercion of a cell: `pd.to_numeric(col, errors='coerce').dropna()`
keeps exactly the present cells that parse as numbers. -/
def Cell.asNum : Cell → Option Rat
  | Cell.missing => none
  | Cell.value n _ => n

/-- Timestamp coercion of a cell: `pd.to_datetime(col, errors='coerce').dropna()`
keeps exactly the present cells that parse as timestamps. -/
def Cell.asTs : Cell → Option (Int × Int)
  | Cell.missing => none
  | Cell.value _ t => t

/-- A present cell that fails to parse as a timestamp: these are counted by
`ts.isna().sum() - df['timestamp'].isna().sum()`. -/
def Cell.unparseableTs : Cell → Bool
  | Cell.value _ none => true
  | _ => false

/-- In-memory table of one parquet file: ordered named columns and the row
count (`len(df)`). -/
structure DataFrame where
  columns : List (String × List Cell)
  nrows : Nat
deriving DecidableEq

/-- Well-formedness (a pandas invariant): every column has exactly `nrows`
cells. -/
def DataFrame.WF (df : DataFrame) : Prop :=
  ∀ c ∈ df.columns, c.2.length = df.nrows

/-- One discovered parquet file: its path segments (`pf.parts`) and content. -/
structure PFile where
  parts : List String
  df : DataFrame
deriving DecidableEq

/-- Python `pf.name`: the final path component. -/
def PFile.name (f : PFile) : String := f.parts.getLastD ""

/-- One entry of the PHYSICAL_BOUNDS table. -/
structure BoundSpec where
  min : Option Rat
  max : Option Rat
  unit : String
  desc : String
deriving DecidableEq

def EXPECTED_FILES : Nat := 131

def EXPECTED_COLUMNS : Nat := 107

/-- Envelope bounds table, in the source's (insertion-ordered dict) order. -/
def PHYSICAL_BOUNDS : List (String × BoundSpec) :=
  [ ("G_H", { min := some 0, max := some 1500, unit := "W/m²",
              desc := "Global Horizontal Irradiance" }),
    ("G_M", { min := some 0, max := some 1500, unit := "W/m²",
              desc := "Module Plane Irradiance" }),
    ("T_U", { min := some (-17.4), max := some 50, unit := "°C",
              desc := "Ambient Temperature" }),
    ("T_M", { min := some (-17.4), max := some 70, unit := "°C",
              desc := "Module Temperature" }),
    ("T_WR", { min := some (-17.4), max := some 80, unit := "°C",
               desc := "Inverter Temperature" }),
    ("P_AC", { min := some 0, max := some 5880, unit := "W",
               desc := "AC Power" }),
    ("U_DC", { min := some 0, max := some 548.5, unit := "V",
               desc := "DC Voltage" }),
    ("U_AC", { min := some 0, max := some 280, unit := "V",
               desc := "AC Voltage" }) ]

/-- Per-file metadata entry of `files_validated`. -/
structure FileInfo where
  file : String
  year : Int
  month : Int
  rows : Nat
  columns : Nat
deriving DecidableEq

/-- The `results` dict built by `validate_parquet_quality`. -/
structure Results where
  total_files : Nat
  total_rows : Nat
  critical_failures : List String
  warnings : List String
  files_validated : List FileInfo
deriving DecidableEq

/- ── String helpers (kernel-reducible models of the Python operations) ── -/

/-- Model of `str.startswith`: the pattern's characters are a prefix of the
string's characters. -/
def strStartsWith (s pat : String) : Bool := pat.data.isPrefixOf s.data

/-- Model of `str.split(c)` on character lists. -/
def splitOnChar (c : Char) : List Char → List (List Char)
  | [] => [[]]
  | a :: as =>
    match splitOnChar c as with
    | [] => if a = c then [[], []] else [[a]]
    | h :: t => if a = c then [] :: h :: t else (a :: h) :: t

/-- Digits of a decimal literal as a number, `none` unless non-empty and
all-digit. -/
def digitsToNat : List Char → Option Nat
  | [] => none
  | cs =>
    if cs.all (fun c => c.isDigit) then
      some (cs.foldl (fun n c => 10 * n + (c.toNat - 48)) 0)
    else none

/-- Model of Python `int(str)` on the characters of the string: optional sign
then decimal digits (whitespace/underscore niceties are not needed here). -/
def pyInt : List Char → Option Int
  | '-' :: rest => (digitsToNat rest).map (fun n => -(n : Int))
  | '+' :: rest => (digitsToNat rest).map (fun n => (n : Int))
  | cs => (digitsToNat cs).map (fun n => (n : Int))

/-- Decimal rendering of a bound value, matching Python `str` on the
configured bounds (integers print bare, the one-decimal floats print with a
single digit after the point). -/
def decStr (q : Rat) : String :=
  if q.den = 1 then toString q.num
  else
    let s := toString (q.num * 10 / (q.den : Int))
    String.mk (s.data.dropLast ++ ['.', s.data.getLastD '0'])

/-- Python `str` of an optional bound (`None` prints as "None"). -/
def optBoundStr : Option Rat → String
  | none => "None"
  | some q => decStr q

/- ── Partition extraction (lines 79–84) ── -/

def yearSeg : String := "year="

def monthSeg : String := "month="

def tsCol : String := "timestamp"

def indexError : String := "list index out of range"

def valueError : String := "invalid literal for int() with base 10"

/-- Model of
`int([p for p in pf.parts if p.startswith(seg)][0].split('=')[1])`:
no matching segment or no second split field raises IndexError, a bad
integer literal raises ValueError; both abort the run. -/
def extractPartition (seg : String) (parts : List String) : Except String Int :=
  match parts.filter (fun p => strStartsWith p seg) with
  | [] => Except.error indexError
  | p :: _ =>
    match (splitOnChar '=' p.data).get? 1 with
    | none => Except.error indexError
    | some cs =>
      match pyInt cs with
      | none => Except.error valueError
      | some n => Except.ok n

/- ── Defect messages (verbatim from the source's f-strings) ── -/

def fcMsg (found : Nat) : String :=
  s!"File count mismatch: expected {EXPECTED_FILES}, found {found}"

def schemaMsg (fname : String) (ncols : Nat) : String :=
  s!"{fname}: expected {EXPECTED_COLUMNS} columns, found {ncols}"

def emptyMsg (fname : String) : String :=
  s!"{fname}: empty file (0 rows)"

def driftMsg (fname : String) (wy wm : Nat) : String :=
  s!"{fname}: {wy} timestamps wrong year, {wm} wrong month (>2 = unexpected)"

def unparseableMsg (fname : String) (n : Nat) : String :=
  s!"{fname}: {n} unparseable timestamps"

def boundMsg (fname col : String) (b : BoundSpec) (below above : Nat) : String :=
  let d := b.desc
  let u := b.unit
  let mn := optBoundStr b.min
  let mx := optBoundStr b.max
  s!"{fname} | {col} ({d}): {below} below {mn}{u}, {above} above {mx}{u}"

def failMsg (n : Nat) : String :=
  s!"Validation failed: {n} critical issue(s). Bad data will NOT be uploaded to S3."

/- ── CHECK 2 and CHECK 3 (lines 96–106) ── -/

def schemaCheck (fname : String) (ncols : Nat) : List String :=
  if ncols ≠ EXPECTED_COLUMNS then [schemaMsg fname ncols] else []

def emptyCheck (fname : String) (nrows : Nat) : List String :=
  if nrows = 0 then [emptyMsg fname] else []

/- ── CHECK 4: timestamp integrity (lines 109–129) ── -/

def wrongYearCount (year : Int) (ts : List (Int × Int)) : Nat :=
  (ts.filter (fun p => p.1 ≠ year)).length

def wrongMonthCount (month : Int) (ts : List (Int × Int)) : Nat :=
  (ts.filter (fun p => p.2 ≠ month)).length

/-- Drift part of CHECK 4 (lines 113–123): only runs when some timestamps
parsed; tolerance of 2 on each count. -/
def driftWarnings (fname : String) (year month : Int) (cells : List Cell) : List String :=
  let valid_ts := cells.filterMap Cell.asTs
  if valid_ts.length > 0 then
    let wrong_year := wrongYearCount year valid_ts
    let wrong_month := wrongMonthCount month valid_ts
    if wrong_month > 2 ∨ wrong_year > 2 then [driftMsg fname wrong_year wrong_month]
    else []
  else []

/-- Unparseable part of CHECK 4 (lines 125–129). -/
def unparseableWarnings (fname : String) (cells : List Cell) : List String :=
  let unparseable := (cells.filter Cell.unparseableTs).length
  if unparseable > 0 then [unparseableMsg fname unparseable] else []

/-- CHECK 4, gated on `'timestamp' in df.columns and len(df) > 0`. -/
def timestampWarnings (fname : String) (year month : Int) (df : DataFrame) : List String :=
  match df.columns.find? (fun c => c.1 = tsCol) with
  | none => []
  | some c =>
    if df.nrows > 0 then
      driftWarnings fname year month c.2 ++ unparseableWarnings fname c.2
    else []

/- ── CHECK 5: physical bounds (lines 132–158) ── -/

def belowCount (mn : Option Rat) (numeric : List Rat) : Nat :=
  match mn with
  | none => 0
  | some m => (numeric.filter (fun q => q < m)).length

def aboveCount (mx : Option Rat) (numeric : List Rat) : Nat :=
  match mx with
  | none => 0
  | some m => (numeric.filter (fun q => q > m)).length

/-- Bounds check of a single matching column (lines 137–158). -/
def boundColWarnings (fname : String) (b : BoundSpec) (col : String) (cells : List Cell) : List String :=
  let numeric := cells.filterMap Cell.asNum
  if numeric.length = 0 then []
  else
    let below_min := belowCount b.min numeric
    let above_max := aboveCount b.max numeric
    if below_min > 0 ∨ above_max > 0 then [boundMsg fname col b below_min above_max]
    else []

/-- CHECK 5 over the whole table, in the bounds table's declared order, then
the matching columns in the table's column order. -/
def boundsWarnings (fname : String) (df : DataFrame) : List String :=
  PHYSICAL_BOUNDS.flatMap (fun pb =>
    (df.columns.filter (fun c => strStartsWith c.1 pb.1)).flatMap (fun c =>
      boundColWarnings fname pb.2 c.1 c.2))

/- ── Per-file inspection (loop body, lines 86–161) ── -/

/-- Criticals, warnings and metadata contributed by a single file with an
already-extracted partition identity. -/
structure Inspection where
  criticals : List String
  warnings : List String
  info : FileInfo
deriving DecidableEq

def inspectFile (year month : Int) (pf : PFile) : Inspection :=
  let fname := pf.name
  let df := pf.df
  { criticals := schemaCheck fname df.columns.length ++ emptyCheck fname df.nrows,
    warnings := timestampWarnings fname year month df ++ boundsWarnings fname df,
    info := { file := fname, year := year, month := month,
              rows := df.nrows, columns := df.columns.length } }

/-- Accumulation of one file's contribution into the results (the appends of
lines 97, 104, 120, 127, 152, 160, 161). -/
def applyFile (r : Results) (year month : Int) (pf : PFile) : Results :=
  let insp := inspectFile year month pf
  { r with
    critical_failures := r.critical_failures ++ insp.criticals,
    warnings := r.warnings ++ insp.warnings,
    total_rows := r.total_rows + pf.df.nrows,
    files_validated := r.files_validated ++ [insp.info] }

/-- One iteration of the file loop: partition extraction may raise and abort
the run; otherwise the file's defects are appended. -/
def processFile (r : Results) (pf : PFile) : Except String Results :=
  match extractPartition yearSeg pf.parts with
  | Except.error e => Except.error e
  | Except.ok year =>
    match extractPartition monthSeg pf.parts with
    | Except.error e => Except.error e
    | Except.ok month => Except.ok (applyFile r year month pf)

/-- The file loop (lines 77–161), propagating any raised exception. -/
def processFiles : List PFile → Results → Except String Results
  | [], r => Except.ok r
  | pf :: files, r =>
    match processFile r pf with
    | Except.error e => Except.error e
    | Except.ok r' => processFiles files r'

/-- Initial results dict with `total_files` already set (lines 54–64). -/
def initResults (files : List PFile) : Results :=
  { total_files := files.length, total_rows := 0,
    critical_failures := [], warnings := [], files_validated := [] }

/-- CHECK 1: file count (lines 67–74), recorded once for the whole run. -/
def checkFileCount (n : Nat) (r : Results) : Results :=
  if n ≠ EXPECTED_FILES then
    { r with critical_failures := r.critical_failures ++ [fcMsg n] }
  else r

/-- Everything before the final raise decision: file-count check, then all
per-file processing. -/
def buildResults (files : List PFile) : Except String Results :=
  processFiles files (checkFileCount files.length (initResults files))

/-- Final verdict (lines 172–189): raise ValueError iff any critical failure
was recorded, otherwise return the results dict. -/
def finalize (r : Results) : Except String Results :=
  match r.critical_failures with
  | [] => Except.ok r
  | _ :: _ => Except.error (failMsg r.critical_failures.length)

/-- Value of a `**kwargs` entry in the claims' sense: an integer constant or
a bounds-table override. -/
inductive ConfigValue where
  | int : Int → ConfigValue
  | bounds : List (String × BoundSpec) → ConfigValue
deriving DecidableEq

/-- Entry point `validate_parquet_quality(input_dir, **kwargs)`. The input
directory's discovered, sorted batch is the `files` argument; the source
accepts arbitrary extra keyword arguments and never reads them. -/
def validate_parquet_quality (files : List PFile)
    (kwargs : List (String × ConfigValue)) : Except String Results :=
  match buildResults files with
  | Except.error e => Except.error e
  | Except.ok r => finalize r

/-- Two successive runs over the same unchanged batch. -/
def runTwice (files : List PFile) (kwargs : List (String × ConfigValue)) :
    Except String Results × Except String Results :=
  (validate_parquet_quality files kwargs, validate_parquet_quality files kwargs)

/-- Success of a run: `Except.ok` means the function returned. -/
def runOk : Except String Results → Bool
  | Except.ok _ => true
  | Except.error _ => false

/- ── Supporting lemmas ── -/

/-- Delta added to the results accumulator by a stretch of per-file
processing. -/
def addDelta (r : Results) (C W : List String) (V : List FileInfo) (n : Nat) : Results :=
  { r with
    critical_failures := r.critical_failures ++ C,
    warnings := r.warnings ++ W,
    files_validated := r.files_validated ++ V,
    total_rows := r.total_rows + n }

lemma addDelta_nil (r : Results) : addDelta r [] [] [] 0 = r := by
  cases r
  simp [addDelta]

lemma addDelta_addDelta (r : Results) (C W V n C' W' V' n') :
    addDelta (addDelta r C W V n) C' W' V' n' =
      addDelta r (C ++ C') (W ++ W') (V ++ V') (n + n') := by
  cases r
  simp [addDelta, List.append_assoc, Nat.add_assoc]

lemma applyFile_eq_addDelta (r : Results) (year month : Int) (pf : PFile) :
    applyFile r year month pf =
      addDelta r (inspectFile year month pf).criticals (inspectFile year month pf).warnings
        [(inspectFile year month pf).info] pf.df.nrows := by
  rfl

/-- The per-file loop appends an accumulator-independent delta: whatever it
adds starting from one accumulator, it adds verbatim starting from any
other, and it succeeds or fails independently of the accumulator. -/
lemma processFiles_delta :
    ∀ (files : List PFile) (r s : Results), processFiles files r = Except.ok s →
      ∃ C W V n, s = addDelta r C W V n ∧
        ∀ r' : Results, processFiles files r' = Except.ok (addDelta r' C W V n) := by
  intro files
  induction files with
  | nil =>
    intro r s h
    refine ⟨[], [], [], 0, ?_, ?_⟩
    · cases h
      exact (addDelta_nil r).symm
    · intro r'
      rw [addDelta_nil]
      rfl
  | cons pf files ih =>
    intro r s h
    unfold processFiles at h
    cases hp : processFile r pf with
    | error e => rw [hp] at h; cases h
    | ok r₁ =>
      rw [hp] at h
      unfold processFile at hp
      cases hy : extractPartition yearSeg pf.parts with
      | error e => rw [hy] at hp; cases hp
      | ok year =>
        rw [hy] at hp
        cases hm : extractPartition monthSeg pf.parts with
        | error e => rw [hm] at hp; cases hp
        | ok month =>
          rw [hm] at hp
          cases hp
          obtain ⟨C, W, V, n, hs, hall⟩ := ih (applyFile r year month pf) s h
          refine ⟨(inspectFile year month pf).criticals ++ C,
                  (inspectFile year month pf).warnings ++ W,
                  (inspectFile year month pf).info :: V,
                  pf.df.nrows + n, ?_, ?_⟩
          · rw [hs, applyFile_eq_addDelta, addDelta_addDelta]
            simp
          · intro r'
            have hpf : processFile r' pf = Except.ok (applyFile r' year month pf) := by
              unfold processFile
              rw [hy, hm]
            have step : processFiles (pf :: files) r' =
                processFiles files (applyFile r' year month pf) := by
              simp only [processFiles, hpf]
            rw [step, hall (applyFile r' year month pf), applyFile_eq_addDelta, addDelta_addDelta]
            simp

/-- Partition extraction of a file raises (IndexError or ValueError). -/
def partitionFails (pf : PFile) : Prop :=
  (∃ e, extractPartition yearSeg pf.parts = Except.error e) ∨
  (∃ e, extractPartition monthSeg pf.parts = Except.error e)

lemma processFile_error_of_partitionFails (r : Results) (pf : PFile)
    (h : partitionFails pf) : ∃ e, processFile r pf = Except.error e := by
  unfold processFile
  rcases h with ⟨e, he⟩ | ⟨e, he⟩
  · exact ⟨e, by rw [he]⟩
  · cases hy : extractPartition yearSeg pf.parts with
    | error e' => exact ⟨e', rfl⟩
    | ok year => exact ⟨e, by rw [he]⟩

/-- A file whose partition cannot be extracted aborts the whole loop. -/
lemma processFiles_error_of_partitionFails :
    ∀ (files : List PFile) (r : Results) (f : PFile), f ∈ files → partitionFails f →
      ∃ e, processFiles files r = Except.error e := by
  intro files
  induction files with
  | nil => intro r f hf; cases hf
  | cons pf files ih =>
    intro r f hf hbad
    unfold processFiles
    rcases List.mem_cons.mp hf with rfl | hf'
    · obtain ⟨e, he⟩ := processFile_error_of_partitionFails r f hbad
      exact ⟨e, by rw [he]⟩
    · cases hp : processFile r pf with
      | error e => exact ⟨e, rfl⟩
      | ok r' => exact ih r' f hf' hbad

/-- Cells dropped by the numeric coercion contribute nothing to the coerced
series. -/
lemma filterMap_filter_isSome (f : α → Option β) (l : List α) :
    (l.filter (fun a => (f a).isSome)).filterMap f = l.filterMap f := by
  induction l with
  | nil => rfl
  | cons a l ihl =>
    cases h : f a <;> simp [List.filter_cons, List.filterMap_cons, h, ihl]

lemma belowCount_eq_zero (mn : Option Rat) (numeric : List Rat)
    (h : ∀ q ∈ numeric, ∀ m : Rat, mn = some m → m ≤ q) :
    belowCount mn numeric = 0 := by
  cases mn with
  | none => rfl
  | some m =>
    unfold belowCount
    rw [List.length_eq_zero, List.filter_eq_nil_iff]
    intro q hq
    simpa using not_lt.mpr (h q hq m rfl)

lemma aboveCount_eq_zero (mx : Option Rat) (numeric : List Rat)
    (h : ∀ q ∈ numeric, ∀ m : Rat, mx = some m → q ≤ m) :
    aboveCount mx numeric = 0 := by
  cases mx with
  | none => rfl
  | some m =>
    unfold aboveCount
    rw [List.length_eq_zero, List.filter_eq_nil_iff]
    intro q hq
    simpa using not_lt.mpr (h q hq m rfl)

lemma belowCount_le_length (mn : Option Rat) (numeric : List Rat) :
    belowCount mn numeric ≤ numeric.length := by
  cases mn with
  | none => exact Nat.zero_le _
  | some m => exact List.length_filter_le _ _

lemma aboveCount_le_length (mx : Option Rat) (numeric : List Rat) :
    aboveCount mx numeric ≤ numeric.length := by
  cases mx with
  | none => exact Nat.zero_le _
  | some m => exact List.length_filter_le _ _

/- ── Concrete data used by witnesses ── -/

/-- Report built for the empty batch: just the file-count critical defect. -/
def emptyBatchReport : Results :=
  { total_files := 0, total_rows := 0, critical_failures := [fcMsg 0],
    warnings := [], files_validated := [] }

/-- A file with 3 columns and one row, partitioned under year=2023/month=7. -/
def schemaWitnessFile : PFile :=
  { parts := ["year=2023", "month=7", "f.parquet"],
    df := { columns := [("a", [Cell.missing]), ("b", [Cell.missing]), ("c", [Cell.missing])],
            nrows := 1 } }

/- ── Claim theorems ── -/

/-- C1: the run raises iff `critical_failures` is non-empty after all files
are processed; when only warnings exist it returns the sealed report with
the warnings sequence intact. -/
theorem c1_failure_iff_criticals (files : List PFile)
    (kwargs : List (String × ConfigValue)) (r : Results)
    (h : buildResults files = Except.ok r) :
    (runOk (validate_parquet_quality files kwargs) = false ↔ r.critical_failures ≠ []) ∧
    (r.critical_failures = [] → validate_parquet_quality files kwargs = Except.ok r) := by
  unfold validate_parquet_quality
  rw [h]
  cases hc : r.critical_failures with
  | nil =>
    constructor
    · simp [finalize, hc, runOk]
    · intro
      simp [finalize, hc]
  | cons a t =>
    constructor
    · simp [finalize, hc, runOk]
    · intro hx
      exact absurd hx (List.cons_ne_nil a t)

theorem c1_failure_iff_criticals_witness :
    (runOk (validate_parquet_quality [] []) = false ↔
      emptyBatchReport.critical_failures ≠ []) ∧
    (emptyBatchReport.critical_failures = [] →
      validate_parquet_quality [] [] = Except.ok emptyBatchReport) :=
  c1_failure_iff_criticals [] [] emptyBatchReport rfl

/-- C2: a discovered-file count different from EXPECTED_FILES yields exactly
one file-count critical defect, recorded for the whole run before any
per-file processing; the run signals failure; and all per-file checks still
run exactly as they would without the mismatch (same per-file criticals,
warnings and metadata, with only the single run-level defect prepended). -/
theorem c2_file_count_mismatch (files : List PFile)
    (kwargs : List (String × ConfigValue)) (hn : files.length ≠ EXPECTED_FILES) :
    (checkFileCount files.length (initResults files)).critical_failures =
      [fcMsg files.length] ∧
    runOk (validate_parquet_quality files kwargs) = false ∧
    (∀ r : Results, buildResults files = Except.ok r →
      ∃ r0 : Results, processFiles files (initResults files) = Except.ok r0 ∧
        r.critical_failures = fcMsg files.length :: r0.critical_failures ∧
        r.warnings = r0.warnings ∧
        r.files_validated = r0.files_validated ∧
        r.total_rows = r0.total_rows) := by
  have hcf : (checkFileCount files.length (initResults files)).critical_failures =
      [fcMsg files.length] := by
    simp [checkFileCount, hn, initResults]
  have hdec : ∀ r : Results, buildResults files = Except.ok r →
      ∃ r0 : Results, processFiles files (initResults files) = Except.ok r0 ∧
        r.critical_failures = fcMsg files.length :: r0.critical_failures ∧
        r.warnings = r0.warnings ∧
        r.files_validated = r0.files_validated ∧
        r.total_rows = r0.total_rows := by
    intro r h
    unfold buildResults at h
    obtain ⟨C, W, V, n, hs, hall⟩ := processFiles_delta _ _ _ h
    refine ⟨addDelta (initResults files) C W V n, hall (initResults files), ?_, ?_, ?_, ?_⟩
    · rw [hs]
      simp [addDelta, checkFileCount, hn, initResults]
    · rw [hs]
      simp [addDelta, checkFileCount, hn, initResults]
    · rw [hs]
      simp [addDelta, checkFileCount, hn, initResults]
    · rw [hs]
      simp [addDelta, checkFileCount, hn, initResults]
  refine ⟨hcf, ?_, hdec⟩
  cases hb : buildResults files with
  | error e => simp [validate_parquet_quality, hb, runOk]
  | ok r =>
    obtain ⟨r0, _, hcrit, _, _, _⟩ := hdec r hb
    unfold validate_parquet_quality
    rw [hb]
    simp [finalize, hcrit, runOk]

theorem c2_file_count_mismatch_witness :
    (checkFileCount (List.length ([] : List PFile)) (initResults [])).critical_failures =
      [fcMsg (List.length ([] : List PFile))] ∧
    runOk (validate_parquet_quality [] []) = false ∧
    (∀ r : Results, buildResults [] = Except.ok r →
      ∃ r0 : Results, processFiles [] (initResults []) = Except.ok r0 ∧
        r.critical_failures = fcMsg (List.length ([] : List PFile)) :: r0.critical_failures ∧
        r.warnings = r0.warnings ∧
        r.files_validated = r0.files_validated ∧
        r.total_rows = r0.total_rows) :=
  c2_file_count_mismatch [] [] (by decide)

/-- C5: a file whose column count differs from EXPECTED_COLUMNS gets exactly
one schema-consistency critical defect, a matching file gets none, and the
file's critical defects are exactly the schema check's output followed by
the emptiness check's output. -/
theorem c5_schema_consistency (year month : Int) (pf : PFile) :
    (pf.df.columns.length ≠ EXPECTED_COLUMNS →
      schemaCheck pf.name pf.df.columns.length =
        [schemaMsg pf.name pf.df.columns.length]) ∧
    (pf.df.columns.length = EXPECTED_COLUMNS →
      schemaCheck pf.name pf.df.columns.length = []) ∧
    (inspectFile year month pf).criticals =
      schemaCheck pf.name pf.df.columns.length ++ emptyCheck pf.name pf.df.nrows := by
  refine ⟨?_, ?_, rfl⟩
  · intro h
    simp [schemaCheck, h]
  · intro h
    simp [schemaCheck, h]

theorem c5_schema_consistency_witness :
    (schemaWitnessFile.df.columns.length ≠ EXPECTED_COLUMNS →
      schemaCheck schemaWitnessFile.name schemaWitnessFile.df.columns.length =
        [schemaMsg schemaWitnessFile.name schemaWitnessFile.df.columns.length]) ∧
    (schemaWitnessFile.df.columns.length = EXPECTED_COLUMNS →
      schemaCheck schemaWitnessFile.name schemaWitnessFile.df.columns.length = []) ∧
    (inspectFile 2023 7 schemaWitnessFile).criticals =
      schemaCheck schemaWitnessFile.name schemaWitnessFile.df.columns.length ++
        emptyCheck schemaWitnessFile.name schemaWitnessFile.df.nrows :=
  c5_schema_consistency 2023 7 schemaWitnessFile

/-- C9: the run is a deterministic pure function of the batch contents — two
runs over the same unchanged batch return identical results, in particular
identical ordered critical-failure and warning sequences. -/
theorem c9_idempotent (files : List PFile) (kwargs : List (String × ConfigValue)) :
    (runTwice files kwargs).1 = (runTwice files kwargs).2 ∧
    Except.map Results.critical_failures (runTwice files kwargs).1 =
      Except.map Results.critical_failures (runTwice files kwargs).2 ∧
    Except.map Results.warnings (runTwice files kwargs).1 =
      Except.map Results.warnings (runTwice files kwargs).2 :=
  ⟨rfl, rfl, rfl⟩

/-- C3: for every configured bound spec and matching column, non-numeric
cells are dropped (they never count as violations), bounds are inclusive
(a column whose numeric values all lie in [min, max], endpoints included,
produces no bound warning), and any strict violation produces exactly one
warning for the column carrying both the below-count and the above-count. -/
theorem c3_physical_bounds (fname col : String) (pre : String) (b : BoundSpec)
    (cells : List Cell) (df : DataFrame)
    (hspec : (pre, b) ∈ PHYSICAL_BOUNDS)
    (hcol : (col, cells) ∈ df.columns)
    (hpre : strStartsWith col pre = true) :
    (boundColWarnings fname b col cells =
      boundColWarnings fname b col (cells.filter (fun c => (Cell.asNum c).isSome))) ∧
    ((∀ q ∈ cells.filterMap Cell.asNum,
        (∀ mn : Rat, b.min = some mn → mn ≤ q) ∧
        (∀ mx : Rat, b.max = some mx → q ≤ mx)) →
      boundColWarnings fname b col cells = []) ∧
    ((belowCount b.min (cells.filterMap Cell.asNum) > 0 ∨
      aboveCount b.max (cells.filterMap Cell.asNum) > 0) →
      boundColWarnings fname b col cells =
        [boundMsg fname col b (belowCount b.min (cells.filterMap Cell.asNum))
          (aboveCount b.max (cells.filterMap Cell.asNum))]) := by
  refine ⟨?_, ?_, ?_⟩
  · unfold boundColWarnings
    rw [filterMap_filter_isSome]
  · intro hin
    have hb : belowCount b.min (cells.filterMap Cell.asNum) = 0 :=
      belowCount_eq_zero _ _ (fun q hq mn hmn => (hin q hq).1 mn hmn)
    have ha : aboveCount b.max (cells.filterMap Cell.asNum) = 0 :=
      aboveCount_eq_zero _ _ (fun q hq mx hmx => (hin q hq).2 mx hmx)
    unfold boundColWarnings
    by_cases h0 : (cells.filterMap Cell.asNum).length = 0
    · simp [h0]
    · simp [h0, hb, ha]
  · intro hpos
    have hlen : (cells.filterMap Cell.asNum).length ≠ 0 := by
      rcases hpos with hp | hp
      · have := belowCount_le_length b.min (cells.filterMap Cell.asNum)
        omega
      · have := aboveCount_le_length b.max (cells.filterMap Cell.asNum)
        omega
    unfold boundColWarnings
    simp only [hlen, if_false]
    rcases hpos with hp | hp <;> simp [hp]

/-- The G_H bound spec exactly as configured. -/
def ghSpec : BoundSpec :=
  { min := some 0, max := some 1500, unit := "W/m²",
    desc := "Global Horizontal Irradiance" }

/-- An irradiance column holding one numeric value of -5 (below the min of 0). -/
def ghCells : List Cell := [Cell.value (some (-5)) none]

/-- A table containing just that irradiance column. -/
def ghDF : DataFrame := { columns := [("G_H_1", ghCells)], nrows := 1 }

theorem c3_physical_bounds_witness :
    (boundColWarnings "f.parquet" ghSpec "G_H_1" ghCells =
      boundColWarnings "f.parquet" ghSpec "G_H_1"
        (ghCells.filter (fun c => (Cell.asNum c).isSome))) ∧
    ((∀ q ∈ ghCells.filterMap Cell.asNum,
        (∀ mn : Rat, ghSpec.min = some mn → mn ≤ q) ∧
        (∀ mx : Rat, ghSpec.max = some mx → q ≤ mx)) →
      boundColWarnings "f.parquet" ghSpec "G_H_1" ghCells = []) ∧
    ((belowCount ghSpec.min (ghCells.filterMap Cell.asNum) > 0 ∨
      aboveCount ghSpec.max (ghCells.filterMap Cell.asNum) > 0) →
      boundColWarnings "f.parquet" ghSpec "G_H_1" ghCells =
        [boundMsg "f.parquet" "G_H_1" ghSpec
          (belowCount ghSpec.min (ghCells.filterMap Cell.asNum))
          (aboveCount ghSpec.max (ghCells.filterMap Cell.asNum))]) :=
  c3_physical_bounds "f.parquet" "G_H_1" "G_H" ghSpec ghCells ghDF
    (List.Mem.head _) (List.Mem.head _) rfl

/-- C4: among successfully parsed timestamps, at most 2 wrong-year and at
most 2 wrong-month produce no drift warning; more than 2 of either kind
produce exactly one drift warning reporting both counts; and for a table
with a timestamp column and at least one row the timestamp check emits
exactly the drift warnings followed by the unparseable-count warning. -/
theorem c4_timestamp_drift (fname : String) (year month : Int)
    (cells : List Cell) (df : DataFrame) :
    (wrongYearCount year (cells.filterMap Cell.asTs) ≤ 2 ∧
     wrongMonthCount month (cells.filterMap Cell.asTs) ≤ 2 →
      driftWarnings fname year month cells = []) ∧
    (wrongYearCount year (cells.filterMap Cell.asTs) > 2 ∨
     wrongMonthCount month (cells.filterMap Cell.asTs) > 2 →
      driftWarnings fname year month cells =
        [driftMsg fname (wrongYearCount year (cells.filterMap Cell.asTs))
          (wrongMonthCount month (cells.filterMap Cell.asTs))]) ∧
    (df.nrows > 0 → df.columns.find? (fun c => c.1 = tsCol) = some (tsCol, cells) →
      timestampWarnings fname year month df =
        driftWarnings fname year month cells ++ unparseableWarnings fname cells) := by
  refine ⟨?_, ?_, ?_⟩
  · rintro ⟨hy, hm⟩
    unfold driftWarnings
    by_cases h0 : (cells.filterMap Cell.asTs).length > 0
    · have hno : ¬(wrongMonthCount month (cells.filterMap Cell.asTs) > 2 ∨
          wrongYearCount year (cells.filterMap Cell.asTs) > 2) := by
        omega
      simp only [h0, if_true, hno, if_false]
    · simp [h0]
  · intro hgt
    have hpos : (cells.filterMap Cell.asTs).length > 0 := by
      rcases hgt with hg | hg
      · have : wrongYearCount year (cells.filterMap Cell.asTs) ≤
            (cells.filterMap Cell.asTs).length := List.length_filter_le _ _
        omega
      · have : wrongMonthCount month (cells.filterMap Cell.asTs) ≤
            (cells.filterMap Cell.asTs).length := List.length_filter_le _ _
        omega
    have hor : wrongMonthCount month (cells.filterMap Cell.asTs) > 2 ∨
        wrongYearCount year (cells.filterMap Cell.asTs) > 2 := hgt.symm
    unfold driftWarnings
    simp only [hpos, if_true, hor, if_true]
  · intro hrows hfind
    unfold timestampWarnings
    rw [hfind]
    simp [hrows]

/-- Cells of a timestamp column: three parsed timestamps in the adjacent
month (2023-08) of a file partitioned under 2023/07. -/
def driftCells : List Cell :=
  [Cell.value none (some (2023, 8)), Cell.value none (some (2023, 8)),
   Cell.value none (some (2023, 8))]

/-- A table whose only column is that timestamp column. -/
def driftDF : DataFrame := { columns := [("timestamp", driftCells)], nrows := 3 }

theorem c4_timestamp_drift_witness :
    (wrongYearCount 2023 (driftCells.filterMap Cell.asTs) ≤ 2 ∧
     wrongMonthCount 7 (driftCells.filterMap Cell.asTs) ≤ 2 →
      driftWarnings "f.parquet" 2023 7 driftCells = []) ∧
    (wrongYearCount 2023 (driftCells.filterMap Cell.asTs) > 2 ∨
     wrongMonthCount 7 (driftCells.filterMap Cell.asTs) > 2 →
      driftWarnings "f.parquet" 2023 7 driftCells =
        [driftMsg "f.parquet" (wrongYearCount 2023 (driftCells.filterMap Cell.asTs))
          (wrongMonthCount 7 (driftCells.filterMap Cell.asTs))]) ∧
    (driftDF.nrows > 0 →
      driftDF.columns.find? (fun c => c.1 = tsCol) = some (tsCol, driftCells) →
      timestampWarnings "f.parquet" 2023 7 driftDF =
        driftWarnings "f.parquet" 2023 7 driftCells ++
          unparseableWarnings "f.parquet" driftCells) :=
  c4_timestamp_drift "f.parquet" 2023 7 driftCells driftDF

/-- C10: a zero-row file contributes no warning defects at all — the
timestamp check is gated on a positive row count and every bounds check
finds an empty numeric series — so its criticals are exactly the schema
check's output followed by the emptiness defect. -/
theorem c10_empty_file_no_warnings (year month : Int) (pf : PFile)
    (h0 : pf.df.nrows = 0) (hwf : pf.df.WF) :
    (inspectFile year month pf).warnings = [] ∧
    (inspectFile year month pf).criticals =
      schemaCheck pf.name pf.df.columns.length ++ [emptyMsg pf.name] := by
  constructor
  · show timestampWarnings pf.name year month pf.df ++ boundsWarnings pf.name pf.df = []
    have hts : timestampWarnings pf.name year month pf.df = [] := by
      unfold timestampWarnings
      cases hf : pf.df.columns.find? (fun c => c.1 = tsCol) with
      | none => rfl
      | some c => simp [h0]
    have hbd : boundsWarnings pf.name pf.df = [] := by
      unfold boundsWarnings
      refine List.flatMap_eq_nil_iff.mpr ?_
      intro pb _
      refine List.flatMap_eq_nil_iff.mpr ?_
      intro c hc
      have hmem : c ∈ pf.df.columns := List.mem_of_mem_filter hc
      have hlen : c.2.length = 0 := by
        rw [hwf c hmem, h0]
      have hnil : c.2 = [] := List.length_eq_zero.mp hlen
      rw [hnil]
      rfl
    rw [hts, hbd]
    rfl
  · show schemaCheck pf.name pf.df.columns.length ++ emptyCheck pf.name pf.df.nrows = _
    rw [h0]
    rfl

/-- A zero-row file with a single (empty) irradiance column. -/
def emptyWitnessFile : PFile :=
  { parts := ["year=2023", "month=7", "empty.parquet"],
    df := { columns := [("G_H_1", [])], nrows := 0 } }

theorem c10_empty_file_no_warnings_witness :
    (inspectFile 2023 7 emptyWitnessFile).warnings = [] ∧
    (inspectFile 2023 7 emptyWitnessFile).criticals =
      schemaCheck emptyWitnessFile.name emptyWitnessFile.df.columns.length ++
        [emptyMsg emptyWitnessFile.name] :=
  c10_empty_file_no_warnings 2023 7 emptyWitnessFile rfl
    (by intro c hc; rw [List.mem_singleton.mp hc]; rfl)

set_option maxRecDepth 8000 in
/-- C6 counterexample: on the empty batch the run fails with the single
critical defect `fcMsg 0` in its report, but the failure signal's payload is
`failMsg 1` — a message carrying only the count — and the defect text is not
contained in it, so the failure does not carry every element of
`criticalFailures`. -/
theorem c6_counterexample :
    buildResults [] = Except.ok emptyBatchReport ∧
    emptyBatchReport.critical_failures = [fcMsg 0] ∧
    validate_parquet_quality [] [] = Except.error (failMsg 1) ∧
    ¬((fcMsg 0).data <:+: (failMsg 1).data) :=
  ⟨rfl, rfl, rfl, by decide⟩

/-- C6 (amended): when critical defects exist the failure signal carries
only their count — the run raises with exactly the message built from
`criticalFailures.length`, while the full defect list stays in the (unreturned)
report. -/
theorem c6_failure_carries_count (files : List PFile)
    (kwargs : List (String × ConfigValue)) (r : Results)
    (h : buildResults files = Except.ok r) (hne : r.critical_failures ≠ []) :
    validate_parquet_quality files kwargs =
      Except.error (failMsg r.critical_failures.length) := by
  cases hc : r.critical_failures with
  | nil => exact absurd hc hne
  | cons a t =>
    unfold validate_parquet_quality
    rw [h]
    show finalize r = _
    unfold finalize
    rw [hc]

theorem c6_failure_carries_count_witness :
    validate_parquet_quality [] [] =
      Except.error (failMsg emptyBatchReport.critical_failures.length) :=
  c6_failure_carries_count [] [] emptyBatchReport rfl (List.cons_ne_nil _ _)

/-- A file whose path has no `year=` (nor `month=`) segment. -/
def badPartFile : PFile :=
  { parts := ["data", "f.parquet"], df := { columns := [], nrows := 0 } }

/-- C7 counterexample: a discovered file whose path lacks a parseable
`year=` segment makes the run abort with the uncaught IndexError — no report
is produced at all, so no defect for the file is recorded in any report. -/
theorem c7_counterexample :
    validate_parquet_quality [badPartFile] [] = Except.error indexError ∧
    runOk (buildResults [badPartFile]) = false :=
  ⟨rfl, rfl⟩

/-- C7 (amended): a discovered file whose path lacks a parseable
`year=`/`month=` segment is not silently skipped — it aborts the entire run
with the exception raised by partition extraction, and no report is
returned. -/
theorem c7_missing_partition_aborts (files : List PFile)
    (kwargs : List (String × ConfigValue)) (f : PFile)
    (hf : f ∈ files) (hbad : partitionFails f) :
    runOk (validate_parquet_quality files kwargs) = false := by
  obtain ⟨e, he⟩ :=
    processFiles_error_of_partitionFails files
      (checkFileCount files.length (initResults files)) f hf hbad
  have hb : buildResults files = Except.error e := he
  unfold validate_parquet_quality
  rw [hb]
  rfl

theorem c7_missing_partition_aborts_witness :
    runOk (validate_parquet_quality [badPartFile] []) = false :=
  c7_missing_partition_aborts [badPartFile] [] badPartFile (List.Mem.head _)
    (Or.inl ⟨indexError, rfl⟩)

/-- C8 counterexample: supplying a structured EXPECTED_FILES override through
the entry point's keyword arguments changes nothing — with the override set
to 0 an empty (0-file) batch still fails the file-count check exactly as
without any override, so no supplied override changes the checks. -/
theorem c8_counterexample :
    validate_parquet_quality [] [("EXPECTED_FILES", ConfigValue.int 0)] =
      validate_parquet_quality [] [] ∧
    runOk (validate_parquet_quality [] [("EXPECTED_FILES", ConfigValue.int 0)]) = false ∧
    validate_parquet_quality [] [("EXPECTED_FILES", ConfigValue.int 0)] =
      Except.error (failMsg 1) :=
  ⟨rfl, rfl, rfl⟩

/-- C8 (amended): the entry point accepts arbitrary extra keyword arguments
besides the input directory but ignores them entirely — the result is
identical for any two keyword-argument lists, because EXPECTED_FILES,
EXPECTED_COLUMNS and PHYSICAL_BOUNDS are fixed module constants with no
per-call override. -/
theorem c8_kwargs_ignored (files : List PFile)
    (k1 k2 : List (String × ConfigValue)) :
    validate_parquet_quality files k1 = validate_parquet_quality files k2 :=
  rfl

end SolarAnalytics
